import Mathlib

/-!
Verification of the registration-form logic of this repository.

The repository is a Vue front-end with two near-duplicate form components
(`src/components/data.vue` and an unnamed variant, called `part_000` below),
a Pinia store with the view flags and the network actions, and a global
scroll lock.  The logic verified here is the field validation, the form-wide
validation, the submit handler, and the selector (modal) controller.

Modelling conventions:
- JavaScript strings are `String` (lists of characters); the embedding is
  faithful for Basic-Multilingual-Plane text, where the JS UTF-16 `length`
  equals the code-point count and `toUpperCase`/`toLowerCase` agree with the
  per-character ASCII case maps used below.
- The JS truthiness test `if (error)` on a string is `error ≠ ""`.
- Side effects of the submit handler (store flag writes, the analytics GET,
  the form POST) are reified as an ordered list of `Effect` values; the
  resulting store state is returned alongside.  The `console.log` call and
  DOM-only calls (`preventDefault`, `stopPropagation`) are not modelled.
-/

/-- Characters matched by the JavaScript regex class `\s`
(whitespace, including the Unicode space separators). -/
def jsWs (c : Char) : Bool :=
  c = ' ' || c = '\t' || c = '\n' || c = '\x0b' || c = '\x0c' || c = '\r' ||
  c = '\u00a0' || c = '\u1680' || ('\u2000' ≤ c && c ≤ '\u200a') ||
  c = '\u2028' || c = '\u2029' || c = '\u202f' || c = '\u205f' ||
  c = '\u3000' || c = '\ufeff'

/-- JavaScript `String.prototype.trim`: strip leading and trailing `\s`. -/
def jsTrim (s : String) : String :=
  ⟨((s.data.dropWhile jsWs).reverse.dropWhile jsWs).reverse⟩

/-- JavaScript `toUpperCase`, restricted to the ASCII case map. -/
def jsToUpper (s : String) : String :=
  ⟨s.data.map Char.toUpper⟩

/-- JavaScript `toLowerCase`, restricted to the ASCII case map. -/
def jsToLower (s : String) : String :=
  ⟨s.data.map Char.toLower⟩

/-- JavaScript `String.prototype.endsWith`. -/
def jsEndsWith (s suffix : String) : Bool :=
  suffix.data.isSuffixOf s.data

/-- The apostrophe character, U+0027. -/
def apos : Char := Char.ofNat 39

/-- `sizeOptions = ['XS', 'S', 'M', 'L', 'XL', 'XXL']` (both components). -/
def sizeOptions : List String := ["XS", "S", "M", "L", "XL", "XXL"]

/-- `hospitalOptions` of the `part_000` component. -/
def hospitalOptions : List String :=
  ["Cedars-Sinai Medical Center (Beverly Hills)",
   "Huntington Health | Pasadena",
   "Cedar-Sinai Marina del Rey",
   "Torrance Memorial Medical Center",
   "Providence Cedars-Sinai Tarzana Medical Center"]

/-- The test of the JS regex `/^[^\s@]+@[^\s@]+\.[^\s@]+$/` from
`validateEmail`.  A whole string matches `A@B.C` with `A`, `B`, `C`
nonempty words over the alphabet of non-whitespace, non-at characters
exactly when: no character of the string is `\s`; the string holds exactly
one at sign; the at sign is not the first character; and the part after the
at sign holds a dot that is neither its first nor its last character (that
dot splits it into the nonempty `B` and `C`). -/
def jsEmailRegexTest (v : String) : Bool :=
  let cs := v.data
  cs.all (fun c => !(jsWs c)) &&
  cs.count '@' == 1 &&
  !(cs.takeWhile (fun c => c != '@')).isEmpty &&
  ((((cs.dropWhile (fun c => c != '@')).drop 1).drop 1).dropLast.contains '.')

/-- `validateEmail` (both components). -/
def validateEmail (email : String) : Bool :=
  jsEmailRegexTest email

/-- `validateCedarsEmail` (both components). -/
def validateCedarsEmail (email : String) : Bool :=
  jsEndsWith (jsToLower email) "@cedars.com"

/-- A character of the JS regex class `[a-zA-Z\s'-]` from the name-field
rule of `validateField`. -/
def nameChar (c : Char) : Bool :=
  ('a' ≤ c && c ≤ 'z') || ('A' ≤ c && c ≤ 'Z') || jsWs c ||
  c = '-' || c = apos

/-- The test of the JS regex `/^[a-zA-Z\s'-]+$/`: the string is nonempty
and every character is in the class. -/
def nameRegexTest (v : String) : Bool :=
  !v.data.isEmpty && v.data.all nameChar

/-- `validateField` of `data.vue`.  The guard `!value || value.trim() === ''`
is equivalent to `value.trim() === ''` since the only falsy string is the
empty one, whose trim is itself. -/
def validateField_dv (fieldName value : String) : String :=
  if jsTrim value = "" then fieldName ++ " is required"
  else if fieldName = "EMPLOYEE WORK EMAIL" then
    if !validateEmail value then "Please enter a valid email address"
    else if !validateCedarsEmail value then "Only cedars.com emails are eligible"
    else ""
  else if fieldName = "FIRST NAME" || fieldName = "LAST NAME" then
    if (jsTrim value).data.length < 2 then fieldName ++ " must be at least 2 characters"
    else if !nameRegexTest value then
      fieldName ++ " can only contain letters, spaces, hyphens, and apostrophes"
    else ""
  else if fieldName = "HOSPITAL" then
    if (jsTrim value).data.length < 2 then "Hospital name must be at least 2 characters"
    else ""
  else if fieldName = "SHIRT SIZE" || fieldName = "JACKET SIZE" then
    if !(sizeOptions.contains (jsToUpper (jsTrim value))) then "Please select a valid size"
    else ""
  else ""

/-- `validateField` of the `part_000` component: identical to the `data.vue`
one except that the HOSPITAL case requires membership in `hospitalOptions`. -/
def validateField_p0 (fieldName value : String) : String :=
  if jsTrim value = "" then fieldName ++ " is required"
  else if fieldName = "EMPLOYEE WORK EMAIL" then
    if !validateEmail value then "Please enter a valid email address"
    else if !validateCedarsEmail value then "Only cedars.com emails are eligible"
    else ""
  else if fieldName = "FIRST NAME" || fieldName = "LAST NAME" then
    if (jsTrim value).data.length < 2 then fieldName ++ " must be at least 2 characters"
    else if !nameRegexTest value then
      fieldName ++ " can only contain letters, spaces, hyphens, and apostrophes"
    else ""
  else if fieldName = "HOSPITAL" then
    if !(hospitalOptions.contains (jsTrim value)) then "Please select a valid hospital"
    else ""
  else if fieldName = "SHIRT SIZE" || fieldName = "JACKET SIZE" then
    if !(sizeOptions.contains (jsToUpper (jsTrim value))) then "Please select a valid size"
    else ""
  else ""

/-- The six form fields. -/
inductive FieldKey
  | firstName | lastName | hospital | email | shirtSize | jacketSize
deriving DecidableEq, Repr

/-- The `fields` array of `validateForm`: the submit order of the fields. -/
def fieldsOrder : List FieldKey :=
  [.firstName, .lastName, .hospital, .email, .shirtSize, .jacketSize]

/-- The `label` of each entry of the `fields` array. -/
def labelOf : FieldKey → String
  | .firstName => "FIRST NAME"
  | .lastName  => "LAST NAME"
  | .hospital  => "HOSPITAL"
  | .email     => "EMPLOYEE WORK EMAIL"
  | .shirtSize => "SHIRT SIZE"
  | .jacketSize => "JACKET SIZE"

/-- The `formData` record. -/
structure FormData where
  firstName : String
  lastName : String
  hospital : String
  email : String
  shirtSize : String
  jacketSize : String
deriving DecidableEq, Repr

/-- `formData.value[key]`. -/
def getField (fd : FormData) : FieldKey → String
  | .firstName => fd.firstName
  | .lastName  => fd.lastName
  | .hospital  => fd.hospital
  | .email     => fd.email
  | .shirtSize => fd.shirtSize
  | .jacketSize => fd.jacketSize

/-- `formData.value[key] = v`. -/
def setField (fd : FormData) (k : FieldKey) (v : String) : FormData :=
  match k with
  | .firstName => { fd with firstName := v }
  | .lastName  => { fd with lastName := v }
  | .hospital  => { fd with hospital := v }
  | .email     => { fd with email := v }
  | .shirtSize => { fd with shirtSize := v }
  | .jacketSize => { fd with jacketSize := v }

/-- The `errors` record: `none` models an absent key (a JS `delete` or a
never-written key). -/
abbrev ErrMap := FieldKey → Option String

/-- `errors.value = \x7b\x7d`. -/
def emptyErrors : ErrMap := fun _ => none

/-- Point update of the error record. -/
def updateErr (m : ErrMap) (k : FieldKey) (v : Option String) : ErrMap :=
  fun q => if q = k then v else m q

/-- JS truthiness of `errors.value[fieldName]`: the key is present and its
value is a nonempty string. -/
def errTruthy : Option String → Bool
  | none => false
  | some s => s != ""

/-- The body of the `fields.forEach` callback of `validateForm`: validate
one field and, when the message is truthy, record it under the field key
and clear the valid flag. -/
def vfStep (vf : String → String → String) (fd : FormData)
    (acc : ErrMap × Bool) (k : FieldKey) : ErrMap × Bool :=
  let e := vf (labelOf k) (getField fd k)
  if e ≠ "" then (updateErr acc.1 k (some e), false) else acc

/-- `validateForm`, parametric in the per-field validator of the component:
reset the error record, validate the six fields in order, record each
truthy message under the field key, and report whether all passed. -/
def validateFormWith (vf : String → String → String) (fd : FormData) :
    ErrMap × Bool :=
  fieldsOrder.foldl (vfStep vf fd) (emptyErrors, true)

/-- `validateForm` of `data.vue`. -/
def validateForm_dv (fd : FormData) : ErrMap × Bool :=
  validateFormWith validateField_dv fd

/-- `validateForm` of the `part_000` component. -/
def validateForm_p0 (fd : FormData) : ErrMap × Bool :=
  validateFormWith validateField_p0 fd

/-- The state of the Pinia app store (`useAppStore`). -/
structure StoreFlags where
  isLoading : Bool
  showbg : Bool
  showhome : Bool
  showdata : Bool
  showfinal : Bool
deriving DecidableEq, Repr

/-- The initial store state. -/
def initFlags : StoreFlags :=
  { isLoading := false, showbg := true, showhome := true,
    showdata := false, showfinal := false }

/-- `getAppsScriptUrl` of the store: the analytics endpoint. -/
def getAppsScriptUrl : String :=
  "https://script.google.com/macros/s/AKfycbxrzN4tG_NRt8MUZy0H7-I9U4LTsJRg5yf2lPw7NQbAWYYUpDK4MHVNh8dKLL287b_g/exec"

/-- `getAppsScriptUrlForm` of the store: the form-submission endpoint. -/
def getAppsScriptUrlForm : String :=
  "https://script.google.com/macros/s/AKfycbz-_ewtYzykpgohJ2SVh2gL5Y1_j5dKgxiaPormY-x140to43MsyueJacr4lAO9JSrXtA/exec"

/-- An observable effect of the submit handler, in program order:
a store flag write, an HTTP GET (the analytics beacon), or an HTTP POST
of form-encoded pairs (the submission endpoint). -/
inductive Effect
  | setFlag (name : String) (value : Bool)
  | httpGet (url : String)
  | httpPost (url : String) (form : List (String × String))
deriving DecidableEq, Repr

/-- `sendAnalyticsData` of the store: `fetch(url + "?type=" + event)`. -/
def sendAnalyticsData (event : String) : Effect :=
  .httpGet (getAppsScriptUrl ++ "?type=" ++ event)

/-- `sendFormData` of the store: POST a `FormData` with the six named
entries, in append order, to the form endpoint. -/
def sendFormData (firstName lastName email hospital shirtsize jacketsize : String) :
    Effect :=
  .httpPost getAppsScriptUrlForm
    [("FirstName", firstName), ("LastName", lastName), ("Email", email),
     ("Hospital", hospital), ("ShirtSize", shirtsize), ("JacketSize", jacketsize)]

/-- The effects of the valid branch of `handleSubmit`, in program order:
`appStore.showdata = false`, `appStore.showfinal = true`,
`appStore.sendAnalyticsData('submitbtn')`, then `appStore.sendFormData(...)`
with the six fields. -/
def submitEffects (fd : FormData) : List Effect :=
  [.setFlag "showdata" false,
   .setFlag "showfinal" true,
   sendAnalyticsData "submitbtn",
   sendFormData fd.firstName fd.lastName fd.email fd.hospital fd.shirtSize fd.jacketSize]

/-- `handleSubmit`, parametric in the per-field validator of the component.
Returns the error record left by `validateForm`, the store state after the
handler, and the ordered effect trace. -/
def handleSubmitWith (vf : String → String → String) (fd : FormData)
    (flags : StoreFlags) : ErrMap × StoreFlags × List Effect :=
  let r := validateFormWith vf fd
  if r.2 then
    (r.1, { flags with showdata := false, showfinal := true }, submitEffects fd)
  else
    (r.1, flags, [])

/-- `handleSubmit` of `data.vue`. -/
def handleSubmit_dv (fd : FormData) (flags : StoreFlags) :
    ErrMap × StoreFlags × List Effect :=
  handleSubmitWith validateField_dv fd flags

/-- `handleSubmit` of the `part_000` component. -/
def handleSubmit_p0 (fd : FormData) (flags : StoreFlags) :
    ErrMap × StoreFlags × List Effect :=
  handleSubmitWith validateField_p0 fd flags

/-- `handleInput(fieldName)`: delete the error entry of the field when it is
truthy (`if (errors.value[fieldName]) \x7b delete ... \x7d`). -/
def handleInput (errs : ErrMap) (k : FieldKey) : ErrMap :=
  if errTruthy (errs k) then updateErr errs k none else errs

/-- The per-component UI state the selector controller touches. -/
structure CompState where
  fd : FormData
  errs : ErrMap
  openModal : Option String

/-- `toggleModal(fieldName)`. -/
def toggleModal (fieldName : String) (openModal : Option String) :
    Option String :=
  if openModal = some fieldName then none else some fieldName

/-- `closeModal()`. -/
def closeModal (_openModal : Option String) : Option String :=
  none

/-- The modal field name of a selector field. -/
def modalName : FieldKey → String
  | .firstName => "firstName"
  | .lastName  => "lastName"
  | .hospital  => "hospital"
  | .email     => "email"
  | .shirtSize => "shirtSize"
  | .jacketSize => "jacketSize"

/-- `selectOption(fieldName, value)`: write the value into the form data,
set `openModal` to null, and run `handleInput(fieldName)` on the errors. -/
def selectOption (st : CompState) (k : FieldKey) (v : String) : CompState :=
  { fd := setField st.fd k v,
    errs := handleInput st.errs k,
    openModal := none }

/-- `handleEscape(event)`: `closeModal` exactly when the key is Escape. -/
def handleEscape (key : String) (openModal : Option String) : Option String :=
  if key = "Escape" then closeModal openModal else openModal

/-- `handleBackdropClick(event)`: `closeModal` exactly when the event target
is the backdrop itself (the current target, or an element with the
`modal-backdrop` class). -/
def handleBackdropClick (targetIsBackdrop : Bool)
    (openModal : Option String) : Option String :=
  if targetIsBackdrop then closeModal openModal else openModal

/-! ### Helper lemmas -/

theorem dropWhile_eq_self_of_all (p : Char → Bool) (l : List Char)
    (h : l.all (fun c => !p c) = true) : l.dropWhile p = l := by
  cases l with
  | nil => rfl
  | cons a t =>
    simp only [List.all_cons, Bool.and_eq_true, Bool.not_eq_true'] at h
    simp [List.dropWhile_cons, h.1]

theorem jsTrim_eq_self {v : String}
    (h : v.data.all (fun c => !(jsWs c)) = true) : jsTrim v = v := by
  unfold jsTrim
  rw [dropWhile_eq_self_of_all _ _ h, dropWhile_eq_self_of_all _ _ (by simpa using h),
    List.reverse_reverse]

theorem vfStep_snd_false (vf : String → String → String) (fd : FormData)
    (acc : ErrMap × Bool) (k : FieldKey) (h : acc.2 = false) :
    (vfStep vf fd acc k).2 = false := by
  rcases eq_or_ne (vf (labelOf k) (getField fd k)) "" with hc | hc
  · simp [vfStep, hc, h]
  · simp [vfStep, hc]

theorem vfStep_snd_of_ne (vf : String → String → String) (fd : FormData)
    (k : FieldKey) (h : vf (labelOf k) (getField fd k) ≠ "")
    (acc : ErrMap × Bool) : (vfStep vf fd acc k).2 = false := by
  simp [vfStep, h]

theorem validateFormWith_not_ok (vf : String → String → String)
    (fd : FormData) (k : FieldKey)
    (h : vf (labelOf k) (getField fd k) ≠ "") :
    (validateFormWith vf fd).2 = false := by
  cases k <;>
    simp only [validateFormWith, fieldsOrder, List.foldl] <;>
    (repeat first
      | exact vfStep_snd_of_ne _ _ _ h _
      | apply vfStep_snd_false)

theorem validateFormWith_ok_of_all (vf : String → String → String)
    (fd : FormData) (h : ∀ k, vf (labelOf k) (getField fd k) = "") :
    validateFormWith vf fd = (emptyErrors, true) := by
  simp [validateFormWith, fieldsOrder, vfStep, h]

theorem validateFormWith_ok_iff (vf : String → String → String)
    (fd : FormData) :
    (validateFormWith vf fd).2 = true ↔
      ∀ k, vf (labelOf k) (getField fd k) = "" := by
  constructor
  · intro h k
    by_contra hk
    have hf := validateFormWith_not_ok vf fd k hk
    rw [hf] at h
    exact Bool.false_ne_true h
  · intro h
    rw [validateFormWith_ok_of_all vf fd h]

theorem validateFormWith_errs (vf : String → String → String)
    (fd : FormData) (k : FieldKey) :
    (validateFormWith vf fd).1 k =
      if vf (labelOf k) (getField fd k) = "" then none
      else some (vf (labelOf k) (getField fd k)) := by
  by_cases h1 : vf (labelOf .firstName) (getField fd .firstName) = "" <;>
  by_cases h2 : vf (labelOf .lastName) (getField fd .lastName) = "" <;>
  by_cases h3 : vf (labelOf .hospital) (getField fd .hospital) = "" <;>
  by_cases h4 : vf (labelOf .email) (getField fd .email) = "" <;>
  by_cases h5 : vf (labelOf .shirtSize) (getField fd .shirtSize) = "" <;>
  by_cases h6 : vf (labelOf .jacketSize) (getField fd .jacketSize) = "" <;>
  cases k <;>
  simp [validateFormWith, fieldsOrder, vfStep, updateErr, emptyErrors,
    h1, h2, h3, h4, h5, h6]

theorem handleSubmitWith_valid (vf : String → String → String)
    (fd : FormData) (flags : StoreFlags)
    (h : (validateFormWith vf fd).2 = true) :
    handleSubmitWith vf fd flags =
      ((validateFormWith vf fd).1,
       { flags with showdata := false, showfinal := true },
       submitEffects fd) := by
  simp [handleSubmitWith, h]

theorem handleSubmitWith_invalid (vf : String → String → String)
    (fd : FormData) (flags : StoreFlags)
    (h : (validateFormWith vf fd).2 = false) :
    handleSubmitWith vf fd flags = ((validateFormWith vf fd).1, flags, []) := by
  simp [handleSubmitWith, h]

/-- The spec's end-to-end example form data: all six fields valid in both
component variants. -/
def janeFd : FormData :=
  { firstName := "Jane", lastName := "Doe",
    hospital := "Cedars-Sinai Medical Center (Beverly Hills)",
    email := "jane.doe@cedars.com", shirtSize := "M", jacketSize := "L" }

/-- The spec's blocked end-to-end example: same but a gmail address. -/
def gmailFd : FormData :=
  { janeFd with email := "jane.doe@gmail.com" }

/-- The multi-word hyphenated and apostrophised name of the spec. -/
def nameSample : String :=
  "Mary-Jane O" ++ String.singleton apos ++ "Brien"

theorem jsTrim_ne_empty_of_validateEmail {v : String}
    (h : validateEmail v = true) : jsTrim v ≠ "" := by
  have h' := h
  simp only [validateEmail, jsEmailRegexTest, Bool.and_eq_true] at h'
  obtain ⟨⟨⟨hall, -⟩, hne'⟩, -⟩ := h'
  have hd : v.data ≠ [] := by
    intro h0
    rw [h0] at hne'
    simp at hne'
  rw [jsTrim_eq_self hall]
  intro hv
  exact hd (congrArg String.data hv)

theorem validateField_p0_eq_dv_of_name (name v : String)
    (hn : name = "FIRST NAME" ∨ name = "LAST NAME") :
    validateField_p0 name v = validateField_dv name v := by
  rcases hn with h | h <;> subst h <;>
    simp [validateField_dv, validateField_p0]

/-- Claim C5: for every field, a raw value that is empty or whitespace-only
makes `validateField` return the message `<field label> is required` (in
both component variants), and on such a form `validateForm` fails and
`handleSubmit` leaves the store untouched and performs no effect. -/
theorem c5_required_blocks :
    (∀ (name v : String), jsTrim v = "" →
      validateField_dv name v = name ++ " is required" ∧
      validateField_p0 name v = name ++ " is required") ∧
    (∀ (fd : FormData) (flags : StoreFlags) (k : FieldKey),
      jsTrim (getField fd k) = "" →
      (validateForm_dv fd).2 = false ∧
      handleSubmit_dv fd flags = ((validateForm_dv fd).1, flags, []) ∧
      (validateForm_p0 fd).2 = false ∧
      handleSubmit_p0 fd flags = ((validateForm_p0 fd).1, flags, [])) := by
  have hreq : ∀ (name v : String), jsTrim v = "" →
      validateField_dv name v = name ++ " is required" ∧
      validateField_p0 name v = name ++ " is required" := by
    intro name v h
    constructor <;> simp [validateField_dv, validateField_p0, h]
  refine ⟨hreq, ?_⟩
  intro fd flags k h
  have hdv : validateField_dv (labelOf k) (getField fd k) ≠ "" := by
    rw [(hreq (labelOf k) (getField fd k) h).1]
    cases k <;> decide
  have hp0 : validateField_p0 (labelOf k) (getField fd k) ≠ "" := by
    rw [(hreq (labelOf k) (getField fd k) h).2]
    cases k <;> decide
  have hf1 := validateFormWith_not_ok validateField_dv fd k hdv
  have hf2 := validateFormWith_not_ok validateField_p0 fd k hp0
  exact ⟨hf1, handleSubmitWith_invalid _ _ flags hf1,
         hf2, handleSubmitWith_invalid _ _ flags hf2⟩

/-- Witness for C5 at the whitespace first name. -/
theorem c5_required_blocks_witness :
    validateField_dv "FIRST NAME" "   " = "FIRST NAME is required" ∧
    (validateForm_dv { janeFd with firstName := "  " }).2 = false := by
  constructor
  · exact (c5_required_blocks.1 "FIRST NAME" "   " (by decide)).1
  · exact (c5_required_blocks.2 { janeFd with firstName := "  " } initFlags
      .firstName (by decide)).1

/-- Claim C4: the two component variants validate HOSPITAL differently:
in `part_000` a non-whitespace value passes exactly when its trimmed form
is one of the five listed hospitals, else the message is
`Please select a valid hospital`; in `data.vue` it passes exactly when the
trimmed length is at least 2, else the message is
`Hospital name must be at least 2 characters`. -/
theorem c4_hospital_variants :
    ∀ v : String, jsTrim v ≠ "" →
      (validateField_p0 "HOSPITAL" v = "" ↔
        hospitalOptions.contains (jsTrim v) = true) ∧
      (hospitalOptions.contains (jsTrim v) = false →
        validateField_p0 "HOSPITAL" v = "Please select a valid hospital") ∧
      (validateField_dv "HOSPITAL" v = "" ↔ 2 ≤ (jsTrim v).length) ∧
      ((jsTrim v).length < 2 →
        validateField_dv "HOSPITAL" v = "Hospital name must be at least 2 characters") := by
  intro v h
  refine ⟨?_, ?_, ?_, ?_⟩
  · by_cases hc : jsTrim v ∈ hospitalOptions <;>
      simp [validateField_p0, h, hc]
  · intro hc
    have hc' : jsTrim v ∉ hospitalOptions := by
      simpa using hc
    simp [validateField_p0, h, hc']
  · by_cases hl : (jsTrim v).length < 2
    · simp [validateField_dv, h, hl]
    · simp [validateField_dv, h, hl]
      omega
  · intro hl
    simp [validateField_dv, h, hl]

/-- Witness for C4: a listed hospital passes the closed-set variant, an
unlisted two-character value fails it but passes the free-text variant. -/
theorem c4_hospital_variants_witness :
    validateField_p0 "HOSPITAL" "Torrance Memorial Medical Center" = "" ∧
    validateField_p0 "HOSPITAL" "ab" = "Please select a valid hospital" ∧
    validateField_dv "HOSPITAL" "ab" = "" := by
  refine ⟨?_, ?_, ?_⟩
  · exact (c4_hospital_variants "Torrance Memorial Medical Center"
      (by decide)).1.mpr (by decide)
  · exact (c4_hospital_variants "ab" (by decide)).2.1 (by decide)
  · exact (c4_hospital_variants "ab" (by decide)).2.2.1.mpr (by decide)

/-- Claim C6: the FIRST NAME and LAST NAME rules of `validateField` (the
same in both component variants) reject any non-empty value whose trimmed
length is below 2, reject any value holding a character outside letters,
whitespace, hyphens and the apostrophe, and accept the multi-word
hyphenated and apostrophised sample name. -/
theorem c6_name_rules :
    (∀ (name v : String), name = "FIRST NAME" ∨ name = "LAST NAME" →
      (v ≠ "" → (jsTrim v).length < 2 →
        validateField_dv name v ≠ "" ∧ validateField_p0 name v ≠ "") ∧
      ((∃ c ∈ v.data, nameChar c = false) →
        validateField_dv name v ≠ "" ∧ validateField_p0 name v ≠ "")) ∧
    validateField_dv "FIRST NAME" nameSample = "" ∧
    validateField_dv "LAST NAME" nameSample = "" ∧
    validateField_p0 "FIRST NAME" nameSample = "" ∧
    validateField_p0 "LAST NAME" nameSample = "" := by
  refine ⟨?_, by decide, by decide, by decide, by decide⟩
  intro name v hn
  have hdv : ∀ w : String, validateField_p0 name w = validateField_dv name w :=
    fun w => validateField_p0_eq_dv_of_name name w hn
  constructor
  · intro _hv hlen
    rw [hdv v]
    by_cases ht : jsTrim v = ""
    · rcases hn with h | h <;> subst h <;>
        simp [validateField_dv, ht]
    · rcases hn with h | h <;> subst h <;>
        simp [validateField_dv, ht, hlen]
  · rintro ⟨c, hc, hbad⟩
    rw [hdv v]
    have hall : v.data.all nameChar = false :=
      List.all_eq_false.mpr ⟨c, hc, by simp [hbad]⟩
    have hreg : nameRegexTest v = false := by
      simp [nameRegexTest, hall]
    by_cases ht : jsTrim v = ""
    · rcases hn with h | h <;> subst h <;>
        simp [validateField_dv, ht]
    · by_cases hlen : (jsTrim v).length < 2
      · rcases hn with h | h <;> subst h <;>
          simp [validateField_dv, ht, hlen]
      · rcases hn with h | h <;> subst h <;>
          simp [validateField_dv, ht, hlen, hreg]

/-- Witness for C6 at a short name and a name with a digit. -/
theorem c6_name_rules_witness :
    validateField_dv "FIRST NAME" "J" ≠ "" ∧
    validateField_dv "LAST NAME" "J4ne" ≠ "" := by
  constructor
  · exact ((c6_name_rules.1 "FIRST NAME" "J" (Or.inl rfl)).1
      (by decide) (by decide)).1
  · exact ((c6_name_rules.1 "LAST NAME" "J4ne" (Or.inr rfl)).2
      ⟨'4', by decide, by decide⟩).1

/-- Claim C7: the SHIRT SIZE and JACKET SIZE rule of `validateField`
accepts a non-whitespace value exactly when its trimmed, upper-cased form
is one of the six size tokens (so the match is case-insensitive), and any
other value gets the message `Please select a valid size`. -/
theorem c7_size_rules :
    ∀ (name v : String), name = "SHIRT SIZE" ∨ name = "JACKET SIZE" →
      jsTrim v ≠ "" →
      (validateField_dv name v = "" ↔
        jsToUpper (jsTrim v) ∈ sizeOptions) ∧
      (jsToUpper (jsTrim v) ∉ sizeOptions →
        validateField_dv name v = "Please select a valid size") ∧
      validateField_p0 name v = validateField_dv name v := by
  intro name v hn hne
  refine ⟨?_, ?_, ?_⟩
  · by_cases hc : jsToUpper (jsTrim v) ∈ sizeOptions <;>
      rcases hn with h | h <;> subst h <;>
      simp [validateField_dv, hne, hc]
  · intro hc
    rcases hn with h | h <;> subst h <;>
      simp [validateField_dv, hne, hc]
  · rcases hn with h | h <;> subst h <;>
      simp [validateField_dv, validateField_p0]

/-- Witness for C7: a lower-case padded token passes, a non-token fails. -/
theorem c7_size_rules_witness :
    validateField_dv "SHIRT SIZE" " m " = "" ∧
    validateField_dv "JACKET SIZE" "huge" = "Please select a valid size" := by
  constructor
  · exact (c7_size_rules "SHIRT SIZE" " m " (Or.inl rfl)
      (by decide)).1.mpr (by decide)
  · exact (c7_size_rules "JACKET SIZE" "huge" (Or.inr rfl)
      (by decide)).2.1 (by decide)

/-- Claim C3: on the email field, a non-whitespace value that fails the
basic shape regex gets the malformed-email message; one that passes the
shape but fails the cedars.com suffix check gets the distinct
domain-eligibility message; in particular the gmail example gets the
domain message and blocks submission without any effect. -/
theorem c3_email_messages :
    (∀ v : String, jsTrim v ≠ "" →
      (validateEmail v = false →
        validateField_dv "EMPLOYEE WORK EMAIL" v =
          "Please enter a valid email address") ∧
      (validateEmail v = true → validateCedarsEmail v = false →
        validateField_dv "EMPLOYEE WORK EMAIL" v =
          "Only cedars.com emails are eligible")) ∧
    validateField_dv "EMPLOYEE WORK EMAIL" "jane.doe@gmail.com" =
      "Only cedars.com emails are eligible" ∧
    (∀ (fd : FormData) (flags : StoreFlags),
      fd.email = "jane.doe@gmail.com" →
      (validateForm_dv fd).2 = false ∧
      handleSubmit_dv fd flags = ((validateForm_dv fd).1, flags, [])) := by
  refine ⟨?_, by decide, ?_⟩
  · intro v hne
    constructor
    · intro hbad
      simp [validateField_dv, hne, hbad]
    · intro hok hced
      simp [validateField_dv, hne, hok, hced]
  · intro fd flags he
    have hk : validateField_dv (labelOf .email) (getField fd .email) ≠ "" := by
      simp only [labelOf, getField, he]
      decide
    have hf := validateFormWith_not_ok validateField_dv fd .email hk
    exact ⟨hf, handleSubmitWith_invalid _ _ flags hf⟩

/-- Witness for C3 at a shapeless value, the gmail value, and the gmail
form. -/
theorem c3_email_messages_witness :
    validateField_dv "EMPLOYEE WORK EMAIL" "janedoe" =
      "Please enter a valid email address" ∧
    (validateForm_dv gmailFd).2 = false := by
  constructor
  · exact (c3_email_messages.1 "janedoe" (by decide)).1 (by decide)
  · exact (c3_email_messages.2.2 gmailFd initFlags (by decide)).1

/-- Claim C10: the cedars.com suffix check lowercases the whole value
before the comparison, so a shape-valid email whose lowercased form ends
with the suffix passes the email field in both variants, whatever the case
of the domain. -/
theorem c10_cedars_case_insensitive :
    (∀ v : String, validateEmail v = true →
      jsEndsWith (jsToLower v) "@cedars.com" = true →
      validateField_dv "EMPLOYEE WORK EMAIL" v = "" ∧
      validateField_p0 "EMPLOYEE WORK EMAIL" v = "") ∧
    validateCedarsEmail "jane.doe@CEDARS.COM" = true ∧
    validateField_dv "EMPLOYEE WORK EMAIL" "jane.doe@CEDARS.COM" = "" ∧
    validateField_dv "EMPLOYEE WORK EMAIL" "jane.doe@Cedars.Com" = "" ∧
    validateField_p0 "EMPLOYEE WORK EMAIL" "jane.doe@CEDARS.COM" = "" := by
  refine ⟨?_, by decide, by decide, by decide, by decide⟩
  intro v hok hced
  have hne := jsTrim_ne_empty_of_validateEmail hok
  have hced' : validateCedarsEmail v = true := hced
  constructor <;>
    simp [validateField_dv, validateField_p0, hne, hok, hced']

/-- Witness for C10 at the upper-case domain example. -/
theorem c10_cedars_case_insensitive_witness :
    validateField_dv "EMPLOYEE WORK EMAIL" "JANE@CEDARS.COM" = "" ∧
    validateField_p0 "EMPLOYEE WORK EMAIL" "JANE@CEDARS.COM" = "" :=
  c10_cedars_case_insensitive.1 "JANE@CEDARS.COM" (by decide) (by decide)

/-- Claim C2: in both component variants, `handleSubmit` proceeds (flips
the two view flags and emits the analytics and form-post effects) exactly
when re-validating the six fields leaves the error record empty; when some
field yields an error, the error record holds that message, the store is
untouched, and no effect (hence no network call) is emitted. -/
theorem c2_submit_iff_no_errors :
    ∀ (fd : FormData) (flags : StoreFlags),
      ((validateForm_dv fd).2 = true ↔ ∀ k, (validateForm_dv fd).1 k = none) ∧
      ((validateForm_dv fd).2 = true →
        handleSubmit_dv fd flags =
          ((validateForm_dv fd).1,
           { flags with showdata := false, showfinal := true },
           submitEffects fd)) ∧
      ((validateForm_dv fd).2 = false →
        handleSubmit_dv fd flags = ((validateForm_dv fd).1, flags, [])) ∧
      (∀ k, validateField_dv (labelOf k) (getField fd k) ≠ "" →
        (validateForm_dv fd).1 k =
          some (validateField_dv (labelOf k) (getField fd k))) ∧
      ((validateForm_p0 fd).2 = true ↔ ∀ k, (validateForm_p0 fd).1 k = none) ∧
      ((validateForm_p0 fd).2 = true →
        handleSubmit_p0 fd flags =
          ((validateForm_p0 fd).1,
           { flags with showdata := false, showfinal := true },
           submitEffects fd)) ∧
      ((validateForm_p0 fd).2 = false →
        handleSubmit_p0 fd flags = ((validateForm_p0 fd).1, flags, [])) ∧
      (∀ k, validateField_p0 (labelOf k) (getField fd k) ≠ "" →
        (validateForm_p0 fd).1 k =
          some (validateField_p0 (labelOf k) (getField fd k))) := by
  intro fd flags
  have main : ∀ vf : String → String → String,
      ((validateFormWith vf fd).2 = true ↔
        ∀ k, (validateFormWith vf fd).1 k = none) ∧
      (∀ k, vf (labelOf k) (getField fd k) ≠ "" →
        (validateFormWith vf fd).1 k =
          some (vf (labelOf k) (getField fd k))) := by
    intro vf
    constructor
    · constructor
      · intro h k
        have := (validateFormWith_ok_iff vf fd).1 h k
        rw [validateFormWith_errs, this]
        simp
      · intro h
        apply (validateFormWith_ok_iff vf fd).2
        intro k
        have hk := h k
        rw [validateFormWith_errs] at hk
        by_contra hne
        rw [if_neg hne] at hk
        exact Option.some_ne_none _ hk
    · intro k hk
      rw [validateFormWith_errs, if_neg hk]
  exact ⟨(main validateField_dv).1,
         fun h => handleSubmitWith_valid _ _ flags h,
         fun h => handleSubmitWith_invalid _ _ flags h,
         (main validateField_dv).2,
         (main validateField_p0).1,
         fun h => handleSubmitWith_valid _ _ flags h,
         fun h => handleSubmitWith_invalid _ _ flags h,
         (main validateField_p0).2⟩

/-- Witness for C2 at the all-valid example form. -/
theorem c2_submit_iff_no_errors_witness :
    (validateForm_dv janeFd).2 = true ∧
    handleSubmit_dv janeFd initFlags =
      ((validateForm_dv janeFd).1,
       { initFlags with showdata := false, showfinal := true },
       submitEffects janeFd) := by
  constructor
  · decide
  · exact (c2_submit_iff_no_errors janeFd initFlags).2.1 (by decide)

/-- Claim C1 counterexample: on the all-valid example form the submit
handler emits the two flag flips BEFORE the analytics GET and the form
POST, not after them as the claim orders the effects. -/
theorem c1_effect_order_counterexample :
    (handleSubmit_dv janeFd initFlags).2.2 =
      [Effect.setFlag "showdata" false, Effect.setFlag "showfinal" true,
       sendAnalyticsData "submitbtn",
       sendFormData "Jane" "Doe" "jane.doe@cedars.com"
         "Cedars-Sinai Medical Center (Beverly Hills)" "M" "L"] ∧
    (handleSubmit_dv janeFd initFlags).2.2 ≠
      [sendAnalyticsData "submitbtn",
       sendFormData "Jane" "Doe" "jane.doe@cedars.com"
         "Cedars-Sinai Medical Center (Beverly Hills)" "M" "L",
       Effect.setFlag "showdata" false, Effect.setFlag "showfinal" true] := by
  constructor <;> decide

/-- Claim C1 as amended: when all six fields validate, `handleSubmit`
first flips the process-wide view flags (`showdata` to false, `showfinal`
to true), then fires the fire-and-forget analytics notification, then
posts the six fields to the external endpoint (in both variants). -/
theorem c1_effect_order_amended :
    ∀ (fd : FormData) (flags : StoreFlags),
      ((validateForm_dv fd).2 = true →
        handleSubmit_dv fd flags =
          ((validateForm_dv fd).1,
           { flags with showdata := false, showfinal := true },
           [Effect.setFlag "showdata" false, Effect.setFlag "showfinal" true,
            sendAnalyticsData "submitbtn",
            sendFormData fd.firstName fd.lastName fd.email fd.hospital
              fd.shirtSize fd.jacketSize])) ∧
      ((validateForm_p0 fd).2 = true →
        handleSubmit_p0 fd flags =
          ((validateForm_p0 fd).1,
           { flags with showdata := false, showfinal := true },
           [Effect.setFlag "showdata" false, Effect.setFlag "showfinal" true,
            sendAnalyticsData "submitbtn",
            sendFormData fd.firstName fd.lastName fd.email fd.hospital
              fd.shirtSize fd.jacketSize])) := by
  intro fd flags
  constructor <;> intro h <;>
    exact handleSubmitWith_valid _ _ flags h

/-- Witness for C1 as amended, at the all-valid example form. -/
theorem c1_effect_order_amended_witness :
    handleSubmit_dv janeFd initFlags =
      ((validateForm_dv janeFd).1,
       { initFlags with showdata := false, showfinal := true },
       [Effect.setFlag "showdata" false, Effect.setFlag "showfinal" true,
        sendAnalyticsData "submitbtn",
        sendFormData "Jane" "Doe" "jane.doe@cedars.com"
          "Cedars-Sinai Medical Center (Beverly Hills)" "M" "L"]) :=
  (c1_effect_order_amended janeFd initFlags).1 (by decide)

/-- Claim C8: the selector controller is a state machine on
`Option String`: toggling a field while closed opens it, toggling the open
field closes it, toggling a different field switches directly to it (so at
most one selector is open), and an Escape key press or a click on the
backdrop closes it from any state; any other key leaves it unchanged. -/
theorem c8_modal_state_machine :
    ∀ (f g : String) (s : Option String),
      toggleModal f none = some f ∧
      toggleModal f (some f) = none ∧
      (g ≠ f → toggleModal f (some g) = some f) ∧
      handleEscape "Escape" s = none ∧
      (∀ key, key ≠ "Escape" → handleEscape key s = s) ∧
      handleBackdropClick true s = none ∧
      handleBackdropClick false s = s := by
  intro f g s
  refine ⟨?_, ?_, ?_, ?_, ?_, ?_, ?_⟩
  · simp [toggleModal]
  · simp [toggleModal]
  · intro h
    simp [toggleModal, h]
  · simp [handleEscape, closeModal]
  · intro key h
    simp [handleEscape, h]
  · simp [handleBackdropClick, closeModal]
  · simp [handleBackdropClick]

/-- Witness for C8 at the two size selectors. -/
theorem c8_modal_state_machine_witness :
    toggleModal "shirtSize" (some "jacketSize") = some "shirtSize" ∧
    handleEscape "a" (some "shirtSize") = some "shirtSize" := by
  constructor
  · exact (c8_modal_state_machine "shirtSize" "jacketSize"
      (some "jacketSize")).2.2.1 (by decide)
  · exact (c8_modal_state_machine "shirtSize" "jacketSize"
      (some "shirtSize")).2.2.2.2.1 "a" (by decide)

/-- Claim C9: `selectOption(field, value)` writes the value into that
field of the form data, closes the selector, and removes the error entry
of that field (which, when present, is never the empty string); the other
fields' values and error entries are unchanged. -/
theorem c9_selectOption_frame :
    ∀ (st : CompState) (k : FieldKey) (v : String),
      st.errs k ≠ some "" →
      getField (selectOption st k v).fd k = v ∧
      (∀ q, q ≠ k → getField (selectOption st k v).fd q = getField st.fd q) ∧
      (selectOption st k v).errs k = none ∧
      (∀ q, q ≠ k → (selectOption st k v).errs q = st.errs q) ∧
      (selectOption st k v).openModal = none := by
  intro st k v herr
  refine ⟨?_, ?_, ?_, ?_, rfl⟩
  · cases k <;> simp [selectOption, setField, getField]
  · intro q hq
    cases k <;> cases q <;> simp_all [selectOption, setField, getField]
  · rcases hk : st.errs k with _ | s
    · simp [selectOption, handleInput, errTruthy, hk]
    · have hs : (s != "") = true := by
        rcases eq_or_ne s "" with h | h
        · exact absurd (hk.trans (by rw [h])) herr
        · simpa using h
      simp [selectOption, handleInput, errTruthy, hk, hs, updateErr]
  · intro q hq
    simp only [selectOption, handleInput]
    split
    · simp [updateErr, hq]
    · rfl

/-- Witness for C9: selecting the M shirt size on a state with an open
shirt selector and a shirt-size error. -/
theorem c9_selectOption_frame_witness :
    getField (selectOption
      { fd := janeFd,
        errs := updateErr emptyErrors .shirtSize (some "Please select a valid size"),
        openModal := some "shirtSize" } .shirtSize "M").fd .shirtSize = "M" ∧
    (selectOption
      { fd := janeFd,
        errs := updateErr emptyErrors .shirtSize (some "Please select a valid size"),
        openModal := some "shirtSize" } .shirtSize "M").errs .shirtSize = none ∧
    (selectOption
      { fd := janeFd,
        errs := updateErr emptyErrors .shirtSize (some "Please select a valid size"),
        openModal := some "shirtSize" } .shirtSize "M").openModal = none := by
  have h := c9_selectOption_frame
    { fd := janeFd,
      errs := updateErr emptyErrors .shirtSize (some "Please select a valid size"),
      openModal := some "shirtSize" } .shirtSize "M" (by decide)
  exact ⟨h.1, h.2.2.1, h.2.2.2.2⟩
